import Mathlib

/-!
Shallow embedding of the koka runtime heap core from
`src/kklib/include/kklib.h`: block headers, reference counting
(duplicate/drop), the drop-for-reuse protocol, block allocation, vectors,
datatype singletons and the thread-local context.

Machine integers are embedded as `Nat`, with an explicit `% 2 ^ w` wherever
the C performs modular arithmetic that could wrap, and as `Int` for the
signed 32-bit marker counter.  Out-of-line routines that the header only
declares (their definitions live in `refcount.c`, `box.h` and the runtime
`.c` files, which are not among the sources) are modelled from the spec and
carry a doc comment saying so.
-/

namespace KK

/-- Tag constants from `enum tag_e`: `TAG_INVALID = 0`, `TAG_MIN = 1`,
`TAG_MAX = 65000`, then the built-in tags in declaration order, so
`TAG_VECTOR = 65009`. -/
def TAG_MIN : Nat := 1

def TAG_MAX : Nat := 65000

def TAG_VECTOR : Nat := 65009

def SCAN_FSIZE_MAX : Nat := 0xFF

/-- The struct `box_s`: one `uintptr_t` machine word (64-bit). -/
structure box_t where
  box : Nat
deriving DecidableEq

/-- The struct `header_s`: `uint8_t scan_fsize`, a one-bit `thread_shared`
flag, `uint16_t tag`, `uint32_t refcount`. -/
structure header_t where
  scan_fsize : Nat
  thread_shared : Bool
  tag : Nat
  refcount : Nat
deriving DecidableEq

/-- A heap block: a header followed by `scan_fsize` boxed fields (for a
large block the boxed `large_scan_fsize` of `block_large_s` is the first
field).  The embedding also records the block's address (`block_t*` value,
nonzero and even by allocator alignment) so that pointer identity and the
`reuse_t` return value can be stated. -/
structure block_t where
  addr : Nat
  header : header_t
  fields : List box_t
deriving DecidableEq

/-- Modelled from the spec: `box_enum` lives in `box.h`, which is not among
the sources.  Spec 4.5: boxing a small integer or enumeration shifts left by
one and sets the low bit; the word is a `uintptr_t`, hence the `% 2 ^ 64`. -/
def box_enum (u : Nat) : box_t := ⟨(2 * u + 1) % 2 ^ 64⟩

/-- Modelled from the spec: `unbox_enum` lives in `box.h`, which is not
among the sources.  Spec 4.5: the inline value is recovered by an arithmetic
unshift. -/
def unbox_enum (v : box_t) : Nat := v.box / 2

/-- The `box_null` word: `define_static_function` initialises the `fun`
field to the all-ones word `~UP(0)` with the comment that it must equal
`box_null`. -/
def box_null : box_t := ⟨2 ^ 64 - 1⟩

/-- The function `block_tag`. -/
def block_tag (b : block_t) : Nat := b.header.tag

/-- The function `block_has_tag`. -/
def block_has_tag (b : block_t) (t : Nat) : Bool := block_tag b == t

/-- The function `block_field`: reads boxed field `index` through the
`block_fields_t` overlay. -/
def block_field (b : block_t) (i : Nat) : box_t := b.fields.getD i ⟨0⟩

/-- The function `block_scan_fsize`: the inline count, unless it is the
sentinel `SCAN_FSIZE_MAX`, in which case the boxed `large_scan_fsize`
stored as the first field holds the full count. -/
def block_scan_fsize (b : block_t) : Nat :=
  if b.header.scan_fsize != SCAN_FSIZE_MAX then b.header.scan_fsize
  else unbox_enum (block_field b 0)

/-- The function `block_refcount`. -/
def block_refcount (b : block_t) : Nat := b.header.refcount

/-- The function `block_is_unique`: refcount equal to 0. -/
def block_is_unique (b : block_t) : Bool := b.header.refcount == 0

/-- Helper of the embedding: store a new value into the header's refcount
field, leaving the address, the other header fields and the fields
unchanged (the C functions assign `b->header.refcount`). -/
def set_refcount (b : block_t) (rc : Nat) : block_t :=
  { b with header := { b.header with refcount := rc } }

/-- The allocator is an external collaborator (spec 6); we model only what
the claims observe: how many allocations were made, each returning a fresh
aligned nonzero address. -/
structure heap_t where
  allocCount : Nat
deriving DecidableEq

/-- The thread-local `context_s`, restricted to the fields the claims
touch: the heap handle and the `int32_t marker_unique` counter. -/
structure context_t where
  heap : heap_t
  marker_unique : Int
deriving DecidableEq

/-- Fresh addresses are 8-aligned and at least 16, so they are nonzero,
have the low bit clear, are pairwise distinct, and never collide with the
static `vector_empty` object placed at address 8. -/
def freshAddr (h : heap_t) : Nat := 16 + 8 * h.allocCount

/-- The function `runtime_malloc` (non-mimalloc branch): an opaque
allocation service; the model returns a fresh address and counts the call. -/
def runtime_malloc (sz : Nat) (ctx : context_t) : Nat × context_t :=
  (freshAddr ctx.heap, { ctx with heap := ⟨ctx.heap.allocCount + 1⟩ })

/-- The function `runtime_malloc_small`, which forwards to
`runtime_malloc`. -/
def runtime_malloc_small (sz : Nat) (ctx : context_t) : Nat × context_t :=
  runtime_malloc sz ctx

def INT32_MAX : Int := 2147483647

/-- Two's-complement wrap of an integer into the signed 32-bit range. -/
def int32_wrap (x : Int) : Int := (x + 2 ^ 31) % 2 ^ 32 - 2 ^ 31

/-- The function `marker_unique`: `int32_t m = ++ctx->marker_unique;` then
`if (m == INT32_MAX) ctx->marker_unique = 1;` and return `m`.  Returns the
pre-incremented value and the updated context. -/
def marker_unique (ctx : context_t) : Int × context_t :=
  let m := int32_wrap (ctx.marker_unique + 1)
  (m, { ctx with marker_unique := if m = INT32_MAX then 1 else m })

/-- The function `block_init`: writes the header
`{ (uint8_t)scan_fsize, 0, (uint16_t)tag, 0 }` (the little-endian branch
stores the same header as the single 64-bit word
`scan_fsize | tag << 16`). -/
def block_init (size scan_fsize tag : Nat) : header_t :=
  { scan_fsize := scan_fsize % 2 ^ 8, thread_shared := false,
    tag := tag % 2 ^ 16, refcount := 0 }

/-- The function `block_large_init`: header
`{ SCAN_FSIZE_MAX, 0, (uint16_t)tag, 0 }` plus the boxed
`large_scan_fsize` field. -/
def block_large_init (size scan_fsize tag : Nat) : header_t × box_t :=
  ({ scan_fsize := SCAN_FSIZE_MAX, thread_shared := false,
     tag := tag % 2 ^ 16, refcount := 0 },
   box_enum scan_fsize)

/-- The function `block_alloc_at`: with `reuse_null` it allocates small
and initialises; with caller-supplied storage (asserted unique) it
reinitialises the header in place with no allocation, leaving whatever was
in the field memory. -/
def block_alloc_at (r : Option block_t) (size scan_fsize tag : Nat)
    (ctx : context_t) : block_t × context_t :=
  match r with
  | none =>
      let m := runtime_malloc_small size ctx
      ({ addr := m.1, header := block_init size scan_fsize tag, fields := [] }, m.2)
  | some b =>
      ({ b with header := block_init size scan_fsize tag }, ctx)

/-- The function `block_alloc`: fresh small allocation plus `block_init`
(the trailing payload is left uninitialised, modelled as no fields). -/
def block_alloc (size scan_fsize tag : Nat) (ctx : context_t) :
    block_t × context_t :=
  let m := runtime_malloc_small size ctx
  ({ addr := m.1, header := block_init size scan_fsize tag, fields := [] }, m.2)

/-- The function `block_alloc_any`: like `block_alloc` but through
`runtime_malloc`. -/
def block_alloc_any (size scan_fsize tag : Nat) (ctx : context_t) :
    block_t × context_t :=
  let m := runtime_malloc size ctx
  ({ addr := m.1, header := block_init size scan_fsize tag, fields := [] }, m.2)

/-- The function `block_large_alloc`: allocates `size + 1` bytes through
`runtime_malloc` and runs `block_large_init`, so the block carries the
boxed `large_scan_fsize` as its first field. -/
def block_large_alloc (size scan_fsize tag : Nat) (ctx : context_t) :
    block_t × context_t :=
  let m := runtime_malloc (size + 1) ctx
  let hf := block_large_init size scan_fsize tag
  ({ addr := m.1, header := hf.1, fields := [hf.2] }, m.2)

/-- Sticky threshold: the header comment says reference counts get sticky
if they get too large, `> 0xC0000000`, and such objects are never freed. -/
def RC_STICKY : Nat := 0xC0000000

/-- Modelled from the spec: `dup_block_check` is only declared in the
header; its definition is in `refcount.c`, not among the sources.  Spec
4.3: the slow duplicate path atomically increments a thread-shared count
and is a no-op on a sticky (overflowed) count; the header comment places
the sticky range above `0xC0000000`. -/
def dup_block_check (b : block_t) (rc : Nat) : block_t :=
  if RC_STICKY < rc then b
  else set_refcount b ((rc + 1) % 2 ^ 32)

/-- The function `dup_block`: the fast path fires when
`(int32_t)rc >= 0`, i.e. `rc < 2 ^ 31`, and increments the 32-bit count in
place, returning the same pointer; otherwise it calls `dup_block_check`. -/
def dup_block (b : block_t) : block_t :=
  if b.header.refcount < 2 ^ 31 then
    set_refcount b ((b.header.refcount + 1) % 2 ^ 32)
  else
    dup_block_check b b.header.refcount

/-- Outcome of `drop_block` and `block_decref`: either the count was
decremented in place, or the call was handed to the out-of-line
`block_check_free(b, rc, ctx)`. -/
inductive drop_result where
  | dec (after : block_t)
  | check_free (b : block_t) (rc : Nat)
deriving DecidableEq

/-- The function `drop_block`.  Note the source condition is
`(int32_t)(rc > 0)`: the unsigned comparison `rc > 0` (true exactly when
`rc != 0`) is evaluated first and only its 0/1 result is cast, so the
in-place decrement branch is taken for every nonzero count, including
counts with the top bit set. -/
def drop_block (b : block_t) : drop_result :=
  if 0 < b.header.refcount then
    .dec (set_refcount b (b.header.refcount - 1))
  else
    .check_free b b.header.refcount

/-- The function `block_decref`: same branch structure (and the same
`(int32_t)(rc > 0)` condition) as `drop_block`, with debug assertions that
`rc != 0` and that the slow branch is never reached. -/
def block_decref (b : block_t) : drop_result :=
  if 0 < b.header.refcount then
    .dec (set_refcount b (b.header.refcount - 1))
  else
    .check_free b b.header.refcount

/-- Composition of `dup_block` followed by `drop_block` on the same block,
as in the duplicate-then-drop scenario. -/
def dup_drop (b : block_t) : drop_result := drop_block (dup_block b)

/-- Outcome of `drop_reuse_block`: either the unique block's fields were
dropped (`dropped` lists the arguments of the `drop_box_t` calls in order)
and its storage address returned for reuse, or `reuse_null` was returned
after a plain `drop_block`. -/
inductive reuse_result where
  | reused (storage : Nat) (dropped : List box_t)
  | not_reused (after : drop_result)
deriving DecidableEq

/-- The `reuse_t` value a `reuse_result` carries: `some` address for the
reuse case, `none` for `reuse_null`. -/
def reuse_result.reuse? : reuse_result → Option Nat
  | .reused s _ => some s
  | .not_reused _ => none

/-- The `drop_box_t` calls a `reuse_result` performed, in order. -/
def reuse_result.dropped : reuse_result → List box_t
  | .reused _ ds => ds
  | .not_reused _ => []

/-- The function `drop_reuse_block`: if `(int32_t)rc == 0` it drops each of
the first `block_scan_fsize` boxed fields and returns `b` itself as reuse
storage; otherwise it performs a `drop_block` and returns `reuse_null`. -/
def drop_reuse_block (b : block_t) : reuse_result :=
  if b.header.refcount = 0 then
    .reused b.addr ((List.range (block_scan_fsize b)).map (block_field b))
  else
    .not_reused (drop_block b)

/-- Outcome of `drop_reuse_blockn`: the unique case drops the fields and
returns the storage; a negative signed count hands the block to
`block_check_free` and returns `reuse_null`; a positive signed count
decrements in place and returns `reuse_null`. -/
inductive reusen_result where
  | reused (storage : Nat) (dropped : List box_t)
  | checkfree (rc : Nat)
  | dec (after : block_t)
deriving DecidableEq

/-- The `reuse_t` value a `reusen_result` carries (`reuse_null` on both
non-reuse paths). -/
def reusen_result.reuse? : reusen_result → Option Nat
  | .reused s _ => some s
  | .checkfree _ => none
  | .dec _ => none

/-- The `drop_box_t` calls a `reusen_result` performed, in order. -/
def reusen_result.dropped : reusen_result → List box_t
  | .reused _ ds => ds
  | .checkfree _ => []
  | .dec _ => []

/-- The function `drop_reuse_blockn`: `rc == 0` drops the statically known
`scan_fsize` fields (debug-asserted to match `block_scan_fsize`) and
returns the storage; `(int32_t)rc < 0`, i.e. `2 ^ 31 <= rc`, calls
`block_check_free`; otherwise the count is decremented in place. -/
def drop_reuse_blockn (b : block_t) (scan_fsize : Nat) : reusen_result :=
  if b.header.refcount = 0 then
    .reused b.addr ((List.range scan_fsize).map (block_field b))
  else if 2 ^ 31 ≤ b.header.refcount then
    .checkfree b.header.refcount
  else
    .dec (set_refcount b (b.header.refcount - 1))

/-- Outcome of `drop_reuse_blockx`: `(int32_t)rc <= 0` delegates to the
out-of-line `block_check_reuse(b, rc, ctx)` (not among the sources);
otherwise the count is decremented in place and `reuse_null` returned. -/
inductive reusex_result where
  | check_reuse (rc : Nat)
  | dec (after : block_t)
deriving DecidableEq

/-- The function `drop_reuse_blockx`. -/
def drop_reuse_blockx (b : block_t) : reusex_result :=
  if b.header.refcount = 0 ∨ 2 ^ 31 ≤ b.header.refcount then
    .check_reuse b.header.refcount
  else
    .dec (set_refcount b (b.header.refcount - 1))

/-- The union `datatype_s`: either the `ptr` member (a block pointer,
lowest address bit clear) or the `singleton` member (lowest bit set,
`4 * tag + 1`). -/
inductive datatype_t where
  | ptr (b : block_t)
  | sing (w : Nat)
deriving DecidableEq

/-- Reading the union through its `singleton` member: for a pointer value
this is the raw address word. -/
def datatype_singleton_val : datatype_t → Nat
  | .ptr b => b.addr
  | .sing w => w

/-- The function `datatype_from_tag`: the inline singleton
`(((uintptr_t)t) << 2) | 1`; the shifted value has the two low bits clear,
so the bitwise or with 1 is `4 * t + 1`, in `uintptr_t` arithmetic. -/
def datatype_from_tag (t : Nat) : datatype_t :=
  .sing ((4 * t + 1) % 2 ^ 64)

/-- The function `datatype_is_ptr`: lowest bit of the word clear. -/
def datatype_is_ptr (d : datatype_t) : Bool :=
  datatype_singleton_val d % 2 == 0

/-- The function `datatype_is_singleton`: lowest bit of the word set. -/
def datatype_is_singleton (d : datatype_t) : Bool :=
  datatype_singleton_val d % 2 == 1

/-- The function `datatype_has_tag`: branch on the pointer/singleton
discriminant, then compare either the pointed-to block's tag or the whole
singleton word against `datatype_from_tag(t).singleton`.  (A well-formed
pointer value always has the low bit clear, so the inner `sing` arm of the
pointer branch is unreachable.) -/
def datatype_has_tag (d : datatype_t) (t : Nat) : Bool :=
  if datatype_is_ptr d then
    match d with
    | .ptr b => block_tag b == t
    | .sing _ => false
  else
    datatype_singleton_val d == datatype_singleton_val (datatype_from_tag t)

/-- Modelled from the spec: `vector_empty` is an `extern` object defined
outside the sources.  Spec 3: a shared empty-vector singleton avoids
allocation for zero length; static objects use `HEADER_STATIC(0, tag)`,
i.e. a recognisable refcount `0xFF00`, at a fixed static address (8 here,
distinct from every `freshAddr`). -/
def vector_empty : block_t :=
  { addr := 8,
    header := { scan_fsize := 0, thread_shared := false,
                tag := TAG_VECTOR, refcount := 0xFF00 },
    fields := [] }

/-- The function `dup_vector_t`: `dup_basetype_as`, i.e. `dup_block` on the
underlying block. -/
def dup_vector_t (v : block_t) : block_t := dup_block v

def sizeof_box_t : Nat := 8

/-- Size of `struct vector_large_s`: 8-byte header, the boxed
`large_scan_fsize`, and `vec[1]`. -/
def sizeof_vector_large_s : Nat := 24

/-- The function `vector_alloc`: length 0 duplicates the shared
`vector_empty` singleton without touching the allocator; otherwise a large
block of `length + 1` scan fields (the count includes `large_scan_fsize`
itself) tagged `TAG_VECTOR` is allocated and, unless the default is
`box_null`, every element is set to it (uninitialised contents are
modelled as zero words). -/
def vector_alloc (length : Nat) (d : box_t) (ctx : context_t) :
    block_t × context_t :=
  if length = 0 then
    (dup_vector_t vector_empty, ctx)
  else
    let r := block_large_alloc (sizeof_vector_large_s + (length - 1) * sizeof_box_t)
               (length + 1) TAG_VECTOR ctx
    let elems := if d ≠ box_null then List.replicate length d
                 else List.replicate length (⟨0⟩ : box_t)
    ({ r.1 with fields := r.1.fields ++ elems }, r.2)

/-- The function `vector_len`: unboxes the `large_scan_fsize` field (the
first field, after the `TAG_VECTOR` assertion) and subtracts the one slot
that field itself occupies. -/
def vector_len (v : block_t) : Nat :=
  unbox_enum (block_field v 0) - 1

/-- C1: the claim states that `drop_block` decrements in place only when
the signed 32-bit count is strictly positive and otherwise (count zero or
top bit set) invokes `block_check_free`.  The code's condition
`(int32_t)(rc > 0)` casts the boolean comparison result instead of the
count, so on a block whose refcount is `0x80000000` (top bit set,
thread-shared range) `drop_block` decrements the count non-atomically to
`0x7FFFFFFF` instead of calling `block_check_free`. -/
theorem c1_drop_block_negative_count_decrements_in_place :
    drop_block { addr := 16,
                 header := { scan_fsize := 1, thread_shared := true,
                             tag := 5, refcount := 0x80000000 },
                 fields := [⟨9⟩] } =
      .dec { addr := 16,
             header := { scan_fsize := 1, thread_shared := true,
                         tag := 5, refcount := 0x7FFFFFFF },
             fields := [⟨9⟩] } := by
  decide

/-- C4: the claim states that `dup_block` followed by `drop_block` is a
net no-op on every block.  On a sticky block (refcount
`0xC0000001 > RC_STICKY`) the slow duplicate path leaves the count
unchanged, but `drop_block`'s buggy `(int32_t)(rc > 0)` test decrements
every nonzero count in place, so the pair lowers the refcount from
`0xC0000001` to `0xC0000000`. -/
theorem c4_dup_then_drop_sticky_changes_refcount :
    dup_block { addr := 16,
                header := { scan_fsize := 1, thread_shared := true,
                            tag := 7, refcount := 0xC0000001 },
                fields := [⟨9⟩] } =
      { addr := 16,
        header := { scan_fsize := 1, thread_shared := true,
                    tag := 7, refcount := 0xC0000001 },
        fields := [⟨9⟩] } ∧
    dup_drop { addr := 16,
               header := { scan_fsize := 1, thread_shared := true,
                           tag := 7, refcount := 0xC0000001 },
               fields := [⟨9⟩] } =
      .dec { addr := 16,
             header := { scan_fsize := 1, thread_shared := true,
                         tag := 7, refcount := 0xC0000000 },
             fields := [⟨9⟩] } := by
  constructor
  · decide
  · decide

/-- C10: on a block whose signed refcount interpretation is non-negative
(`rc < 2 ^ 31`), `dup_block` returns the very same pointer with the
refcount incremented by exactly one and every other part of the block
(tag, scan_fsize, thread_shared flag, stored fields) unchanged. -/
theorem c10_dup_block_frame (b : block_t)
    (h : b.header.refcount < 2 ^ 31) :
    dup_block b =
      { addr := b.addr,
        header := { scan_fsize := b.header.scan_fsize,
                    thread_shared := b.header.thread_shared,
                    tag := b.header.tag,
                    refcount := b.header.refcount + 1 },
        fields := b.fields } ∧
    (dup_block b).addr = b.addr ∧
    (dup_block b).header.refcount = b.header.refcount + 1 ∧
    (dup_block b).header.tag = b.header.tag ∧
    (dup_block b).header.scan_fsize = b.header.scan_fsize ∧
    (dup_block b).header.thread_shared = b.header.thread_shared ∧
    (dup_block b).fields = b.fields := by
  have h31 : b.header.refcount < 2147483648 := by omega
  have hm : (b.header.refcount + 1) % 4294967296 = b.header.refcount + 1 := by
    omega
  simp [dup_block, set_refcount, h31, hm]

/-- C10 witness: `dup_block` at a concrete unshared block. -/
theorem c10_dup_block_frame_witness :
    (({ addr := 16,
        header := { scan_fsize := 1, thread_shared := false,
                    tag := 7, refcount := 3 },
        fields := [⟨9⟩] } : block_t).header.refcount < 2 ^ 31) ∧
    (dup_block { addr := 16,
                 header := { scan_fsize := 1, thread_shared := false,
                             tag := 7, refcount := 3 },
                 fields := [⟨9⟩] }).header.refcount =
      ({ addr := 16,
         header := { scan_fsize := 1, thread_shared := false,
                     tag := 7, refcount := 3 },
         fields := [⟨9⟩] } : block_t).header.refcount + 1 :=
  ⟨by decide,
   (c10_dup_block_frame
     { addr := 16,
       header := { scan_fsize := 1, thread_shared := false,
                   tag := 7, refcount := 3 },
       fields := [⟨9⟩] } (by decide)).2.2.1⟩

/-- C3: on a shared block (signed-positive refcount, `0 < rc < 2 ^ 31`),
`drop_reuse_blockn` and `drop_reuse_blockx` return `reuse_null`, decrement
the refcount by exactly one, drop none of the fields, and do not free the
block (the address, fields, tag and scan count are unchanged). -/
theorem c3_drop_reuse_shared (b : block_t) (n : Nat)
    (h1 : 0 < b.header.refcount) (h2 : b.header.refcount < 2 ^ 31) :
    drop_reuse_blockn b n = .dec (set_refcount b (b.header.refcount - 1)) ∧
    (drop_reuse_blockn b n).reuse? = none ∧
    (drop_reuse_blockn b n).dropped = [] ∧
    drop_reuse_blockx b = .dec (set_refcount b (b.header.refcount - 1)) ∧
    (set_refcount b (b.header.refcount - 1)).header.refcount =
      b.header.refcount - 1 ∧
    (set_refcount b (b.header.refcount - 1)).addr = b.addr ∧
    (set_refcount b (b.header.refcount - 1)).fields = b.fields ∧
    (set_refcount b (b.header.refcount - 1)).header.tag = b.header.tag ∧
    (set_refcount b (b.header.refcount - 1)).header.scan_fsize =
      b.header.scan_fsize := by
  have hne : ¬ b.header.refcount = 0 := by omega
  have h31 : b.header.refcount < 2147483648 := by omega
  have hlt : ¬ 2147483648 ≤ b.header.refcount := by omega
  simp [drop_reuse_blockn, drop_reuse_blockx, reusen_result.reuse?,
        reusen_result.dropped, set_refcount, hne, hlt, h31]

/-- C3 witness: a concrete shared block with refcount 2. -/
theorem c3_drop_reuse_shared_witness :
    (0 < ({ addr := 16,
            header := { scan_fsize := 1, thread_shared := false,
                        tag := 7, refcount := 2 },
            fields := [⟨3⟩] } : block_t).header.refcount) ∧
    (({ addr := 16,
        header := { scan_fsize := 1, thread_shared := false,
                    tag := 7, refcount := 2 },
        fields := [⟨3⟩] } : block_t).header.refcount < 2 ^ 31) ∧
    (drop_reuse_blockn { addr := 16,
                         header := { scan_fsize := 1, thread_shared := false,
                                     tag := 7, refcount := 2 },
                         fields := [⟨3⟩] } 1).reuse? = none :=
  ⟨by decide, by decide,
   (c3_drop_reuse_shared
     { addr := 16,
       header := { scan_fsize := 1, thread_shared := false,
                   tag := 7, refcount := 2 },
       fields := [⟨3⟩] } 1 (by decide) (by decide)).2.1⟩

/-- C2: on a uniquely owned block (refcount 0) whose scan-field count is
`n`, `drop_reuse_block` (and `drop_reuse_blockn` with the matching static
count `n`) drops exactly the first `n` boxed fields, once each and in
order, and returns the block's own storage address (non-null, equal to
`b`) instead of freeing it. -/
theorem c2_drop_reuse_unique (b : block_t) (n : Nat)
    (h0 : b.header.refcount = 0) (hn : block_scan_fsize b = n) :
    drop_reuse_block b =
      .reused b.addr ((List.range n).map (block_field b)) ∧
    (drop_reuse_block b).reuse? = some b.addr ∧
    (drop_reuse_block b).reuse? ≠ none ∧
    (drop_reuse_block b).dropped.length = n ∧
    (∀ i, i < n →
      (drop_reuse_block b).dropped[i]? = some (block_field b i)) ∧
    drop_reuse_blockn b n =
      .reused b.addr ((List.range n).map (block_field b)) ∧
    (drop_reuse_blockn b n).reuse? = some b.addr ∧
    (drop_reuse_blockn b n).dropped.length = n ∧
    (∀ i, i < n →
      (drop_reuse_blockn b n).dropped[i]? = some (block_field b i)) := by
  have hb : drop_reuse_block b =
      .reused b.addr ((List.range n).map (block_field b)) := by
    simp [drop_reuse_block, h0, hn]
  have hbn : drop_reuse_blockn b n =
      .reused b.addr ((List.range n).map (block_field b)) := by
    simp [drop_reuse_blockn, h0]
  refine ⟨hb, ?_, ?_, ?_, ?_, hbn, ?_, ?_, ?_⟩
  · rw [hb]; simp [reuse_result.reuse?]
  · rw [hb]; simp [reuse_result.reuse?]
  · rw [hb]; simp [reuse_result.dropped]
  · intro i hi
    rw [hb]
    simp [reuse_result.dropped, List.getElem?_map, List.getElem?_range hi]
  · rw [hbn]; simp [reusen_result.reuse?]
  · rw [hbn]; simp [reusen_result.dropped]
  · intro i hi
    rw [hbn]
    simp [reusen_result.dropped, List.getElem?_map, List.getElem?_range hi]

/-- C2 witness: a concrete unique block with two scanned fields. -/
theorem c2_drop_reuse_unique_witness :
    ({ addr := 16,
       header := { scan_fsize := 2, thread_shared := false,
                   tag := 7, refcount := 0 },
       fields := [⟨3⟩, ⟨5⟩] } : block_t).header.refcount = 0 ∧
    block_scan_fsize { addr := 16,
                       header := { scan_fsize := 2, thread_shared := false,
                                   tag := 7, refcount := 0 },
                       fields := [⟨3⟩, ⟨5⟩] } = 2 ∧
    (drop_reuse_block { addr := 16,
                        header := { scan_fsize := 2, thread_shared := false,
                                    tag := 7, refcount := 0 },
                        fields := [⟨3⟩, ⟨5⟩] }).reuse? = some 16 :=
  ⟨by decide, by decide,
   (c2_drop_reuse_unique
     { addr := 16,
       header := { scan_fsize := 2, thread_shared := false,
                   tag := 7, refcount := 0 },
       fields := [⟨3⟩, ⟨5⟩] } 2 (by decide) (by decide)).2.1⟩

/-- C5: for every positive length (bounded so that the boxed count fits a
word), `vector_alloc` yields a large block: inline `scan_fsize` is the
sentinel `0xFF`, the boxed `large_scan_fsize` stored right after the
header encodes `length + 1` (the count includes that field itself),
`block_scan_fsize` returns `length + 1`, `vector_len` returns `length`,
and the tag is `TAG_VECTOR`. -/
theorem c5_vector_alloc_large (n : Nat) (d : box_t) (ctx : context_t)
    (h1 : 0 < n) (h2 : n < 2 ^ 62) :
    ((vector_alloc n d ctx).1).header.scan_fsize = SCAN_FSIZE_MAX ∧
    block_field ((vector_alloc n d ctx).1) 0 = box_enum (n + 1) ∧
    block_scan_fsize ((vector_alloc n d ctx).1) = n + 1 ∧
    vector_len ((vector_alloc n d ctx).1) = n ∧
    block_tag ((vector_alloc n d ctx).1) = TAG_VECTOR := by
  have hne : ¬ n = 0 := by omega
  have hv : ((vector_alloc n d ctx).1).header.scan_fsize = SCAN_FSIZE_MAX ∧
      ((vector_alloc n d ctx).1).fields.take 1 = [box_enum (n + 1)] ∧
      block_tag ((vector_alloc n d ctx).1) = TAG_VECTOR := by
    simp [vector_alloc, block_large_alloc, block_large_init, hne, block_tag,
          TAG_VECTOR, SCAN_FSIZE_MAX]
  obtain ⟨hs, ht, htag⟩ := hv
  have hf : block_field ((vector_alloc n d ctx).1) 0 = box_enum (n + 1) := by
    have := congrArg (fun l => l.getD 0 (⟨0⟩ : box_t)) ht
    simpa [block_field, List.getD] using this
  have hu : unbox_enum (box_enum (n + 1)) = n + 1 := by
    simp only [box_enum, unbox_enum]
    omega
  refine ⟨hs, hf, ?_, ?_, htag⟩
  · simp [block_scan_fsize, hs, hf, hu, SCAN_FSIZE_MAX]
  · simp [vector_len, hf, hu]

/-- C5 witness: a vector of length 3. -/
theorem c5_vector_alloc_large_witness :
    0 < 3 ∧ (3 : Nat) < 2 ^ 62 ∧
    vector_len ((vector_alloc 3 ⟨4⟩ { heap := ⟨0⟩, marker_unique := 0 }).1) = 3 :=
  ⟨by decide, by decide,
   (c5_vector_alloc_large 3 ⟨4⟩ { heap := ⟨0⟩, marker_unique := 0 }
     (by decide) (by decide)).2.2.2.1⟩

/-- C6: for tags in the nullary-constructor range, `datatype_from_tag t`
is the inline singleton `(t << 2) | 1 = 4 * t + 1`, `datatype_has_tag` of
it at `t` holds, and at any different tag `t2` of the range it fails. -/
theorem c6_datatype_singleton_round_trip (t t2 : Nat)
    (h1 : t ≤ TAG_MAX) (h2 : t2 ≤ TAG_MAX) (hne : t2 ≠ t) :
    datatype_from_tag t = .sing (4 * t + 1) ∧
    datatype_has_tag (datatype_from_tag t) t = true ∧
    datatype_has_tag (datatype_from_tag t) t2 = false := by
  simp only [TAG_MAX] at h1 h2
  refine ⟨?_, ?_, ?_⟩
  · simp only [datatype_from_tag, datatype_t.sing.injEq]
    omega
  · simp [datatype_has_tag, datatype_is_ptr, datatype_singleton_val,
          datatype_from_tag]
    omega
  · simp [datatype_has_tag, datatype_is_ptr, datatype_singleton_val,
          datatype_from_tag]
    omega

/-- C6 witness: tags 3 and 4. -/
theorem c6_datatype_singleton_round_trip_witness :
    (3 : Nat) ≤ TAG_MAX ∧ (4 : Nat) ≤ TAG_MAX ∧
    datatype_has_tag (datatype_from_tag 3) 4 = false :=
  ⟨by decide, by decide,
   (c6_datatype_singleton_round_trip 3 4 (by decide) (by decide)
     (by decide)).2.2⟩

/-- C7: `vector_alloc` at length 0 returns the shared `vector_empty`
singleton, duplicated: the result has `vector_empty`'s address, equals
`dup_vector_t vector_empty` (refcount bumped by the duplicate), and the
context, in particular the allocation count, is untouched — the allocator
is never called on this path. -/
theorem c7_vector_alloc_zero_is_shared_empty (d : box_t) (ctx : context_t) :
    (vector_alloc 0 d ctx).1.addr = vector_empty.addr ∧
    (vector_alloc 0 d ctx).1 = dup_vector_t vector_empty ∧
    (vector_alloc 0 d ctx).2 = ctx ∧
    (vector_alloc 0 d ctx).2.heap.allocCount = ctx.heap.allocCount :=
  ⟨rfl, rfl, rfl, rfl⟩

/-- C8: with the stored marker counter in the reachable range
`[0, INT32_MAX - 1]`, `marker_unique` returns the pre-incremented value,
which is at least 1 and never 0; when the incremented value reaches
`INT32_MAX` the stored counter resets to 1, and in every case the stored
counter stays inside `[1, INT32_MAX - 1]`, so no later call can yield 0. -/
theorem c8_marker_unique_positive (ctx : context_t)
    (h1 : 0 ≤ ctx.marker_unique)
    (h2 : ctx.marker_unique ≤ INT32_MAX - 1) :
    (marker_unique ctx).1 = ctx.marker_unique + 1 ∧
    1 ≤ (marker_unique ctx).1 ∧
    (marker_unique ctx).1 ≠ 0 ∧
    1 ≤ (marker_unique ctx).2.marker_unique ∧
    (marker_unique ctx).2.marker_unique ≤ INT32_MAX - 1 ∧
    (ctx.marker_unique + 1 = INT32_MAX →
      (marker_unique ctx).2.marker_unique = 1) := by
  simp only [INT32_MAX] at h2 ⊢
  have hw : int32_wrap (ctx.marker_unique + 1) = ctx.marker_unique + 1 := by
    simp only [int32_wrap]
    omega
  have e1 : (marker_unique ctx).1 = ctx.marker_unique + 1 := hw
  have e2 : (marker_unique ctx).2.marker_unique =
      if int32_wrap (ctx.marker_unique + 1) = INT32_MAX then 1
      else int32_wrap (ctx.marker_unique + 1) := rfl
  rw [hw] at e2
  simp only [INT32_MAX] at e2
  by_cases hmax : ctx.marker_unique + 1 = 2147483647
  · rw [if_pos hmax] at e2
    exact ⟨e1, by omega, by omega, by omega, by omega, fun _ => e2⟩
  · rw [if_neg hmax] at e2
    exact ⟨e1, by omega, by omega, by omega, by omega,
      fun h => absurd h hmax⟩

/-- C8 witness: a context with marker counter 41. -/
theorem c8_marker_unique_positive_witness :
    (0 : Int) ≤ ({ heap := ⟨0⟩, marker_unique := 41 } : context_t).marker_unique ∧
    ({ heap := ⟨0⟩, marker_unique := 41 } : context_t).marker_unique ≤ INT32_MAX - 1 ∧
    (marker_unique { heap := ⟨0⟩, marker_unique := 41 }).1 =
      ({ heap := ⟨0⟩, marker_unique := 41 } : context_t).marker_unique + 1 :=
  ⟨by decide, by decide,
   (c8_marker_unique_positive { heap := ⟨0⟩, marker_unique := 41 }
     (by decide) (by decide)).1⟩

/-- C9: every fresh allocation path — `block_alloc`, `block_alloc_any`,
`block_alloc_at` with no prior storage, `block_large_alloc`, and
`block_alloc_at` reinitialising caller-supplied unique storage — yields a
block with refcount 0 (`block_is_unique`), thread_shared flag clear, and
the requested tag. -/
theorem c9_fresh_blocks_are_unique (size scan_fsize tag : Nat)
    (ctx : context_t) (b0 : block_t)
    (h1 : scan_fsize < SCAN_FSIZE_MAX) (h2 : tag < 2 ^ 16)
    (h3 : block_is_unique b0 = true) :
    ((block_alloc size scan_fsize tag ctx).1.header.refcount = 0 ∧
     block_is_unique (block_alloc size scan_fsize tag ctx).1 = true ∧
     (block_alloc size scan_fsize tag ctx).1.header.thread_shared = false ∧
     block_tag (block_alloc size scan_fsize tag ctx).1 = tag) ∧
    ((block_alloc_any size scan_fsize tag ctx).1.header.refcount = 0 ∧
     block_is_unique (block_alloc_any size scan_fsize tag ctx).1 = true ∧
     (block_alloc_any size scan_fsize tag ctx).1.header.thread_shared = false ∧
     block_tag (block_alloc_any size scan_fsize tag ctx).1 = tag) ∧
    ((block_alloc_at none size scan_fsize tag ctx).1.header.refcount = 0 ∧
     block_is_unique (block_alloc_at none size scan_fsize tag ctx).1 = true ∧
     (block_alloc_at none size scan_fsize tag ctx).1.header.thread_shared = false ∧
     block_tag (block_alloc_at none size scan_fsize tag ctx).1 = tag) ∧
    ((block_alloc_at (some b0) size scan_fsize tag ctx).1.header.refcount = 0 ∧
     block_is_unique (block_alloc_at (some b0) size scan_fsize tag ctx).1 = true ∧
     (block_alloc_at (some b0) size scan_fsize tag ctx).1.header.thread_shared = false ∧
     block_tag (block_alloc_at (some b0) size scan_fsize tag ctx).1 = tag) ∧
    ((block_large_alloc size scan_fsize tag ctx).1.header.refcount = 0 ∧
     block_is_unique (block_large_alloc size scan_fsize tag ctx).1 = true ∧
     (block_large_alloc size scan_fsize tag ctx).1.header.thread_shared = false ∧
     block_tag (block_large_alloc size scan_fsize tag ctx).1 = tag) := by
  have hm : tag % 65536 = tag := by omega
  simp [block_alloc, block_alloc_any, block_alloc_at, block_large_alloc,
        block_init, block_large_init, block_is_unique, block_tag,
        runtime_malloc, runtime_malloc_small, hm]

/-- C9 witness: a 2-field block with tag 500, fresh and reinitialised. -/
theorem c9_fresh_blocks_are_unique_witness :
    (2 : Nat) < SCAN_FSIZE_MAX ∧ (500 : Nat) < 2 ^ 16 ∧
    block_is_unique ({ addr := 16,
                       header := { scan_fsize := 2, thread_shared := false,
                                   tag := 500, refcount := 0 },
                       fields := [] } : block_t) = true ∧
    block_tag (block_alloc 24 2 500 { heap := ⟨0⟩, marker_unique := 0 }).1 = 500 :=
  ⟨by decide, by decide, by decide,
   (c9_fresh_blocks_are_unique 24 2 500 { heap := ⟨0⟩, marker_unique := 0 }
     { addr := 16,
       header := { scan_fsize := 2, thread_shared := false,
                   tag := 500, refcount := 0 },
       fields := [] }
     (by decide) (by decide) (by decide)).1.2.2.2⟩

end KK
